import Mathlib

/-!
Verification of the Speech Playback Controller of the speech-service repository.

The repository's single source file (`src/src/App.tsx`) contains two evolving
variants of the same React component, concatenated:

* variant A (lines 1-641): the Azure-capable version, with Safari handling,
  an autoplay-blocked flag, and a cloud synthesis path (`speakWithAzure`);
* variant B (lines 642-954): the simplified browser-only version, with a
  bounded voice-loading retry loop and an interval-based keep-alive watchdog.

They are embedded below as namespaces `V1` (variant A) and `V2` (variant B).
JavaScript strings are modelled as `List Char` (`JStr`); the host speech
facility (`window.speechSynthesis`) is modelled by the list of calls the
component issues to it (`EngineCall`); the asynchronous voice directory is a
function from poll number to the voice list it returns at that poll.
-/

namespace SpeechService

/-- A JavaScript string, modelled as its list of characters. -/
abbrev JStr := List Char

/-- Lowercasing, modelling `String.prototype.toLowerCase` characterwise. -/
def lowerStr (s : JStr) : JStr := s.map Char.toLower

/-- Substring containment, modelling `String.prototype.includes`:
`containsSeq pat s` is true when `pat` occurs contiguously in `s`. -/
def containsSeq (pat s : JStr) : Bool :=
  match s with
  | [] => pat.isEmpty
  | _ :: rest => pat.isPrefixOf s || containsSeq pat rest

/-- Whitespace trimming at both ends, modelling `String.prototype.trim`. -/
def jsTrim (s : JStr) : JStr :=
  ((s.dropWhile Char.isWhitespace).reverse.dropWhile Char.isWhitespace).reverse

/-- A voice descriptor as enumerated by the Voice Directory
(`SpeechSynthesisVoice`): display name and language tag. -/
structure Voice where
  name : JStr
  lang : JStr
deriving DecidableEq, Repr

/-- The mutable settings record of both variants (`VoiceSettings` in the
source): selected voice (nullable), rate and pitch as signed percentages. -/
structure VoiceSettings where
  voice : Option Voice
  rate : Int
  pitch : Int
deriving DecidableEq, Repr

/-- An utterance description handed to the engine (`SpeechSynthesisUtterance`
after the component has filled it in).  The source sets
`utterance.rate = 1 + rate/100` and `utterance.pitch = 1 + pitch/100`; the
embedding records the raw percentages, an injective recoding of those affine
images (see `effectiveRate` and `effectivePitch`). -/
structure Utterance where
  text : JStr
  voice : Option Voice
  ratePct : Int
  pitchPct : Int
deriving DecidableEq, Repr

/-- Effective playback rate computed by the source: `1 + rate/100`. -/
def effectiveRate (ratePct : Int) : Rat := 1 + (ratePct : Rat) / 100

/-- Effective playback pitch computed by the source: `1 + pitch/100`. -/
def effectivePitch (pitchPct : Int) : Rat := 1 + (pitchPct : Rat) / 100

/-- A call issued by the component to the platform Synthesis Engine
(`window.speechSynthesis`). -/
inductive EngineCall where
  | cancel
  | speakUtt (u : Utterance)
  | pause
  | resume
deriving DecidableEq, Repr

/-- The comparator passed to `Array.prototype.sort` by both variants' voice
loaders (lines 212-220 and 700-707): voices whose name satisfies the marker
predicate compare before voices whose name does not; all other pairs compare
equal. -/
def voiceCompare (marked : JStr → Bool) (a b : Voice) : Int :=
  if marked a.name && !(marked b.name) then -1
  else if !(marked a.name) && marked b.name then 1
  else 0

/-- Stable insertion of `x` (the earlier-indexed element) into an already
sorted list: `x` is placed before the first element it does not strictly
follow, so original order is kept between elements comparing equal. -/
def insertStable (cmp : Voice → Voice → Int) (x : Voice) : List Voice → List Voice
  | [] => [x]
  | y :: ys => if cmp x y ≤ 0 then x :: y :: ys else y :: insertStable cmp x ys

/-- Model of `[...voices].sort(cmp)`.  `Array.prototype.sort` is required to
be stable since ECMAScript 2019; for the consistent comparators used by the
source, any stable sort yields the same list, so it is modelled by stable
insertion sort. -/
def jsSort (cmp : Voice → Voice → Int) : List Voice → List Voice
  | [] => []
  | x :: xs => insertStable cmp x (jsSort cmp xs)

/-- Run of consecutive ticks, starting at tick `k` and observing at most
`fuel` ticks, during which the engine still reports speaking.  This is the
number of keep-alive firings the watchdog performs before it observes a
not-speaking engine and stops. -/
def aliveCount (speaking : Nat → Bool) (k fuel : Nat) : Nat :=
  match fuel with
  | 0 => 0
  | f + 1 => if speaking k then aliveCount speaking (k + 1) f + 1 else 0

/-- The double-quote character (code point 34). -/
def dquoteChar : Char := Char.ofNat 34

/-- The single-quote character (code point 39). -/
def squoteChar : Char := Char.ofNat 39

/-- Quote characters accepted by the URL-parameter regex character class
`["']` of variant A (line 273). -/
def isQuoteChar (c : Char) : Bool := c = dquoteChar || c = squoteChar

/-- JavaScript line terminators, which `.` in a regular expression without
the `s` flag does not match. -/
def isLineTerminator (c : Char) : Bool :=
  c = Char.ofNat 10 || c = Char.ofNat 13 || c = Char.ofNat 0x2028 || c = Char.ofNat 0x2029

/-- Match condition of the anchored regex `^["'](.*)["']$` (line 273): the
value has at least two characters, begins and ends with a quote character
(not necessarily the same one), and its interior contains no line
terminator. -/
def hasSurroundingQuotes (t : JStr) : Bool :=
  match t.head?, t.getLast? with
  | some c0, some c1 =>
    decide (2 ≤ t.length) && isQuoteChar c0 && isQuoteChar c1
      && ((t.drop 1).dropLast.all fun c => !(isLineTerminator c))
  | _, _ => false

/-- Model of `textParam.replace(/^["'](.*)["']$/, "$1")` (line 273): one
leading and one trailing quote character are dropped when the regex matches;
otherwise the value is returned unchanged. -/
def stripSurroundingQuotes (t : JStr) : JStr :=
  if hasSurroundingQuotes t then (t.drop 1).dropLast else t

namespace V1

/-- Marker predicate of variant A (lines 214, 225-227, 353-354):
`name.toLowerCase().includes("microsoft zira")`. -/
def isZiraName (name : JStr) : Bool :=
  containsSeq "microsoft zira".data (lowerStr name)

/-- The Azure credential record of variant A (`AzureConfig`). -/
structure AzureConfig where
  key : JStr
  region : JStr
  voice : JStr
deriving DecidableEq, Repr

/-- The component state of variant A (lines 17-50): the `useState` cells and
the refs that the playback controller reads or writes. -/
structure AppState where
  text : JStr
  availableVoices : List Voice
  isPlaying : Bool
  useAzure : Bool
  showSettings : Bool
  settings : VoiceSettings
  azureConfig : AzureConfig
  autoSpeechBlocked : Bool
  textFromUrl : Option JStr
  hasSpokenFromUrl : Bool
  speechSynthesisSupported : Bool
deriving DecidableEq, Repr

/-- The initial render state of variant A (lines 17-50): empty text, no
voices, not playing, browser backend, default rate and pitch of -10%,
the default Azure voice name, and no blocked flag. -/
def initialState (supported : Bool) : AppState :=
  { text := []
    availableVoices := []
    isPlaying := false
    useAzure := false
    showSettings := false
    settings := { voice := none, rate := -10, pitch := -10 }
    azureConfig := { key := [], region := [], voice := "en-US-JennyNeural".data }
    autoSpeechBlocked := false
    textFromUrl := none
    hasSpokenFromUrl := false
    speechSynthesisSupported := supported }

/-- Voice resolution at utterance construction (lines 112-117): the selected
voice if any, else the first available voice, else none (the platform keeps
its own default). -/
def resolveVoice (s : AppState) : Option Voice :=
  match s.settings.voice with
  | some v => some v
  | none => s.availableVoices.head?

/-- Utterance construction inside `speak` (lines 109-121). -/
def mkUtterance (s : AppState) (t : JStr) : Utterance :=
  { text := t
    voice := resolveVoice s
    ratePct := s.settings.rate
    pitchPct := s.settings.pitch }

/-- The default-voice selection step of variant A's `loadVoices`
(lines 224-238): if a Zira-marked voice is found in the sorted list and no
voice is selected, or the selected voice is not Zira-marked, select that
found voice; else, if the list is non-empty and no voice is selected, select
its first entry; otherwise keep the current selection. -/
def applyDefaultSelection (current : Option Voice) (sortedVoices : List Voice) :
    Option Voice :=
  let ziraVoice := sortedVoices.find? (fun v => isZiraName v.name)
  let currentIsZira : Bool :=
    match current with
    | some cv => isZiraName cv.name
    | none => false
  if ziraVoice.isSome && (current.isNone || !currentIsZira) then ziraVoice
  else if !sortedVoices.isEmpty && current.isNone then sortedVoices.head?
  else current

/-- Variant A's `loadVoices` body (lines 209-239): sort the enumerated
voices with the Zira-first comparator, publish the sorted list, and apply
the default-voice selection policy. -/
def loadVoices (s : AppState) (voices : List Voice) : AppState :=
  let sortedVoices := jsSort (voiceCompare isZiraName) voices
  { s with
    availableVoices := sortedVoices
    settings :=
      { s.settings with
        voice := applyDefaultSelection s.settings.voice sortedVoices } }

/-- User-visible effects and state writes performed by the cloud path
`speakWithAzure` (lines 297-335), in program order. -/
inductive AzureEvent where
  | alertConfig
  | openSettings
  | setPlaying (b : Bool)
  | synthesize (text voiceName : JStr)
  | closeSynthesizer
  | logError
  | alertSynthesisFailed
deriving DecidableEq, Repr

/-- The cloud path `speakWithAzure` (lines 297-335) as the ordered trace of
its effects.  `result` is the outcome of the single `speakTextAsync` promise.
If key or region is missing the function alerts, opens the settings panel and
returns; otherwise it sets the playing flag, synthesizes, closes the
synthesizer on success or logs and alerts on failure, and finally clears the
playing flag. -/
def speakWithAzure (cfg : AzureConfig) (result : Except JStr Unit) (t : JStr) :
    List AzureEvent :=
  if cfg.key.isEmpty || cfg.region.isEmpty then
    [AzureEvent.alertConfig, AzureEvent.openSettings]
  else
    [AzureEvent.setPlaying true, AzureEvent.synthesize t cfg.voice]
      ++ (match result with
          | Except.ok _ => [AzureEvent.closeSynthesizer]
          | Except.error _ => [AzureEvent.logError, AzureEvent.alertSynthesisFailed])
      ++ [AzureEvent.setPlaying false]

/-- Effect of one Azure-path event on the component state: `setIsPlaying`
writes the playing flag and `setShowSettings(true)` opens the panel; the
remaining events do not touch component state. -/
def applyAzureEvent (s : AppState) : AzureEvent → AppState
  | AzureEvent.setPlaying b => { s with isPlaying := b }
  | AzureEvent.openSettings => { s with showSettings := true }
  | _ => s

/-- Component state after the cloud path has run through a trace. -/
def applyAzureTrace (s : AppState) (tr : List AzureEvent) : AppState :=
  tr.foldl applyAzureEvent s

/-- The `speak` entry point of variant A (lines 92-206).  Returns the state
after the synchronous run together with the local engine calls it issues
(including the submission scheduled behind the 50 ms settle delay, line 195)
and the Azure trace when the cloud backend is selected.  `enginePaused` is
the engine's paused flag observed at line 187.  On the local path the
function performs no state writes of its own: the flags change only in the
utterance event handlers (`handleEvent`). -/
def speak (s : AppState) (enginePaused : Bool) (azureResult : Except JStr Unit)
    (t : JStr) : AppState × List EngineCall × List AzureEvent :=
  if s.useAzure then
    let tr := speakWithAzure s.azureConfig azureResult t
    (applyAzureTrace s tr, [], tr)
  else if !s.speechSynthesisSupported then (s, [], [])
  else if (jsTrim t).isEmpty then (s, [], [])
  else
    (s,
     EngineCall.cancel
       :: ((if enginePaused then [EngineCall.resume] else [])
           ++ [EngineCall.speakUtt (mkUtterance s t)]),
     [])

/-- The error payload string `"not-allowed"` (line 165). -/
def notAllowedError : JStr := "not-allowed".data

/-- The error payload string `"interrupted"` (line 168). -/
def interruptedError : JStr := "interrupted".data

/-- Events delivered to variant A's playback controller on the local path:
the utterance lifecycle callbacks (lines 127-176) and the play/pause button
(lines 342-351). -/
inductive Event where
  | started
  | ended
  | errored (err : JStr) (requestedText : JStr)
  | togglePlayPause
deriving DecidableEq, Repr

/-- The `"not-allowed"` recovery (lines 86-90): set the blocked flag and
retain the requested text for a later manual retry. -/
def handleNotAllowedError (s : AppState) (t : JStr) : AppState :=
  { s with autoSpeechBlocked := true, textFromUrl := some t }

/-- One event-handler step of variant A on the local path.  `onstart`
(lines 127-132) sets the playing flag and clears the blocked flag; `onend`
(lines 150-156) clears the playing flag; `onerror` (lines 159-176) routes
`"not-allowed"` through `handleNotAllowedError` (other errors are only
logged) and then always clears the playing flag; `togglePlayPause`
(lines 342-351) cancels and clears the playing flag when playing, and calls
`speak` (no synchronous flag change) otherwise. -/
def handleEvent (s : AppState) : Event → AppState
  | Event.started => { s with isPlaying := true, autoSpeechBlocked := false }
  | Event.ended => { s with isPlaying := false }
  | Event.errored err t =>
    let s1 := if err = notAllowedError then handleNotAllowedError s t else s
    { s1 with isPlaying := false }
  | Event.togglePlayPause =>
    if s.isPlaying then { s with isPlaying := false } else s

/-- State reached from the initial render after a sequence of local-path
events. -/
def runEvents (evs : List Event) : AppState :=
  evs.foldl handleEvent (initialState true)

/-- The keep-alive timeout length of variant A, in milliseconds (line 135). -/
def maxTimeout : Nat := 15000

/-- The keep-alive loop `restartSpeech` of variant A (lines 137-147): at each
firing, if the engine still reports speaking it pauses, resumes and
reschedules itself after `maxTimeout`; otherwise it does nothing and never
reschedules.  `speaking k` is the engine's speaking flag at the k-th firing;
`fuel` bounds the number of firings observed. -/
def restartSpeech (speaking : Nat → Bool) (k fuel : Nat) : List EngineCall :=
  match fuel with
  | 0 => []
  | f + 1 =>
    if speaking k then
      EngineCall.pause :: EngineCall.resume :: restartSpeech speaking (k + 1) f
    else []

/-- Engine calls issued when variant A unmounts: the voices effect's cleanup
(lines 249-251) cancels unconditionally, and the general cleanup effect
(lines 357-364) cancels again whenever the platform facility exists.  React
runs the cleanup of every registered effect exactly once at unmount,
whatever the component state. -/
def unmountEngineCalls (s : AppState) : List EngineCall :=
  [EngineCall.cancel]
    ++ (if s.speechSynthesisSupported then [EngineCall.cancel] else [])

/-- The URL-parameter text processing of variant A (lines 271-277): strip
one layer of surrounding quotes, trim whitespace, then URI-decode.  `decode`
stands for the host's `decodeURIComponent`. -/
def processTextParam (decode : JStr → JStr) (raw : JStr) : JStr :=
  decode (jsTrim (stripSurroundingQuotes raw))

end V1

namespace V2

/-- Marker predicate of variant B (lines 701-713):
`name.toLowerCase().includes("microsoft")`. -/
def isMicrosoftName (name : JStr) : Bool :=
  containsSeq "microsoft".data (lowerStr name)

/-- The component state of variant B (lines 659-668): the `useState` cells
and the refs the controller reads or writes. -/
structure State where
  text : JStr
  availableVoices : List Voice
  isPlaying : Bool
  settings : VoiceSettings
  utteranceRef : Option JStr
  voicesLoaded : Bool
  autoplayText : Option JStr
  voiceInitialized : Bool
deriving DecidableEq, Repr

/-- The initial render state of variant B: empty text, no voices, not
playing, default rate and pitch of -10%, no live utterance, and the one-shot
load flag unset. -/
def initialState : State :=
  { text := []
    availableVoices := []
    isPlaying := false
    settings := { voice := none, rate := -10, pitch := -10 }
    utteranceRef := none
    voicesLoaded := false
    autoplayText := none
    voiceInitialized := false }

/-- The retry cap of variant B's voice loader (line 683): 50 retries of
100 ms each, 5 seconds total. -/
def maxRetries : Nat := 50

/-- The retry interval of variant B's voice loader, in milliseconds
(line 691). -/
def retryDelayMs : Nat := 100

/-- The body run by variant B's `loadVoices` once a non-empty voice list has
been obtained and the one-shot guard has passed (lines 697-722): sort with
the Microsoft-first comparator, publish the sorted list, select the first
Microsoft voice, else the first sorted voice, and mark initialization
complete. -/
def populateVoices (s : State) (voices : List Voice) : State :=
  let sortedVoices := jsSort (voiceCompare isMicrosoftName) voices
  let s1 := { s with voicesLoaded := true, availableVoices := sortedVoices }
  let s2 :=
    match sortedVoices.find? (fun v => isMicrosoftName v.name) with
    | some mv => { s1 with settings := { s1.settings with voice := some mv } }
    | none =>
      match sortedVoices with
      | v :: _ => { s1 with settings := { s1.settings with voice := some v } }
      | [] => s1
  { s2 with voiceInitialized := true }

/-- Variant B's `loadVoices` (lines 685-723).  `g` is the Voice Directory:
`g a` is the list `getVoices()` returns at the a-th poll.  `fuel` is the
number of retries still allowed (`maxRetries - retryCount`).  Returns the
final state together with the number of polls performed: an empty list is
retried after `retryDelayMs` while retries remain; the first non-empty list
stops the retrying and, unless the one-shot `voicesLoadedRef` guard is
already set, populates the state. -/
def loadVoices (g : Nat → List Voice) (s : State) (attempt fuel : Nat) :
    State × Nat :=
  if (g attempt).isEmpty then
    match fuel with
    | 0 => (s, 1)
    | f + 1 =>
      let r := loadVoices g s (attempt + 1) f
      (r.1, r.2 + 1)
  else if s.voicesLoaded then (s, 1)
  else (populateVoices s (g attempt), 1)
termination_by fuel

/-- Utterance construction in variant B's `speak` (lines 780-787): the
selected voice (guaranteed present by the guard) and the percentage-derived
rate and pitch. -/
def mkUtterance (s : State) (t : JStr) : Utterance :=
  { text := t
    voice := s.settings.voice
    ratePct := s.settings.rate
    pitchPct := s.settings.pitch }

/-- The `speak` entry point of variant B (lines 773-803): a no-op when the
trimmed text is empty or no voice has been resolved; otherwise it cancels
any ongoing speech, stores the new utterance in `utteranceRef` and submits
it to the engine. -/
def speak (s : State) (t : JStr) : State × List EngineCall :=
  if (jsTrim t).isEmpty || s.settings.voice.isNone then (s, [])
  else
    ({ s with utteranceRef := some t },
     [EngineCall.cancel, EngineCall.speakUtt (mkUtterance s t)])

/-- The keep-alive interval length of variant B, in milliseconds
(line 763). -/
def keepAliveInterval : Nat := 14000

/-- The interval body of variant B's watchdog effect (lines 752-771): at
each tick, if the engine no longer reports speaking the interval is cleared
and nothing further ever runs; otherwise one pause immediately followed by
one resume is issued and the interval keeps running.  `speaking k` is the
engine's speaking flag at the k-th tick; `fuel` bounds the ticks
observed. -/
def watchdogTicks (speaking : Nat → Bool) (k fuel : Nat) : List EngineCall :=
  match fuel with
  | 0 => []
  | f + 1 =>
    if !(speaking k) then []
    else EngineCall.pause :: EngineCall.resume :: watchdogTicks speaking (k + 1) f

/-- Engine calls issued when variant B unmounts: the voices effect's cleanup
(lines 732-736) cancels only when an utterance is currently held in
`utteranceRef`; the watchdog effect's cleanup only clears its interval. -/
def unmountEngineCalls (s : State) : List EngineCall :=
  if s.utteranceRef.isSome then [EngineCall.cancel] else []

/-- The URL-parameter text processing of variant B (lines 671-679): the raw
parameter value is URI-decoded, with no quote stripping and no trimming.
`decode` stands for the host's `decodeURIComponent`. -/
def processTextParam (decode : JStr → JStr) (raw : JStr) : JStr :=
  decode raw

end V2

/-! Helper lemmas about the stable sort. -/

/-- Stable insertion into a list split as marked entries followed by
unmarked entries keeps the split: a marked element goes in front (it ties
with the marked block and precedes the unmarked block), an unmarked element
goes right after the marked block. -/
theorem insertStable_split (marked : JStr → Bool) (x : Voice) (A B : List Voice)
    (hA : ∀ a ∈ A, marked a.name = true) (hB : ∀ b ∈ B, marked b.name = false) :
    insertStable (voiceCompare marked) x (A ++ B) =
      if marked x.name then x :: (A ++ B) else A ++ x :: B := by
  induction A with
  | nil =>
    cases B with
    | nil => by_cases hx : marked x.name <;> simp [insertStable, hx]
    | cons b bs =>
      have hb : marked b.name = false := hB b (by simp)
      by_cases hx : marked x.name <;>
        simp [insertStable, voiceCompare, hx, hb]
  | cons a A ih =>
    have ha : marked a.name = true := hA a (by simp)
    by_cases hx : marked x.name
    · simp [insertStable, voiceCompare, hx, ha]
    · have := ih (fun a' h => hA a' (List.mem_cons_of_mem _ h))
      simp only [hx, if_false] at this
      simp [insertStable, voiceCompare, hx, ha, this]

/-- The source's stable sort with the marker comparator is exactly the
stable partition: marked entries first, original order kept within each
group. -/
theorem jsSort_partition (marked : JStr → Bool) (l : List Voice) :
    jsSort (voiceCompare marked) l =
      l.filter (fun v => marked v.name) ++ l.filter (fun v => !(marked v.name)) := by
  induction l with
  | nil => rfl
  | cons x xs ih =>
    rw [jsSort, ih,
      insertStable_split marked x _ _
        (fun a h => (List.mem_filter.mp h).2)
        (fun b h => by simpa using (List.mem_filter.mp h).2)]
    by_cases hx : marked x.name <;> simp [hx, List.filter_cons]

/-- Sorting does not change the number of voices. -/
theorem jsSort_length (marked : JStr → Bool) (l : List Voice) :
    (jsSort (voiceCompare marked) l).length = l.length := by
  rw [jsSort_partition]
  simpa using (List.length_eq_length_filter_add (l := l) (fun v => marked v.name)).symm

/-- C3: for every voice list, the sorted list produced by the load routine
places every voice whose display name contains the preferred-voice marker
(case-insensitive substring; `"microsoft zira"` in variant A,
`"microsoft"` in variant B) before every voice that does not, preserving
the original relative order within each group — i.e. it equals the stable
partition — and in particular `[A, Bmarked, C, Dmarked]` sorts to
`[Bmarked, Dmarked, A, C]`. -/
theorem speech_c3_sorted_marker_first :
    (∀ (voices : List Voice),
        jsSort (voiceCompare V1.isZiraName) voices =
          voices.filter (fun v => V1.isZiraName v.name)
            ++ voices.filter (fun v => !(V1.isZiraName v.name)))
    ∧ (∀ (voices : List Voice),
        jsSort (voiceCompare V2.isMicrosoftName) voices =
          voices.filter (fun v => V2.isMicrosoftName v.name)
            ++ voices.filter (fun v => !(V2.isMicrosoftName v.name)))
    ∧ jsSort (voiceCompare V1.isZiraName)
        [⟨"Alex".data, "en-US".data⟩,
         ⟨"Microsoft Zira - English".data, "en-US".data⟩,
         ⟨"Google US English".data, "en-US".data⟩,
         ⟨"Microsoft Zira Desktop".data, "en-US".data⟩] =
        [⟨"Microsoft Zira - English".data, "en-US".data⟩,
         ⟨"Microsoft Zira Desktop".data, "en-US".data⟩,
         ⟨"Alex".data, "en-US".data⟩,
         ⟨"Google US English".data, "en-US".data⟩] :=
  ⟨fun voices => jsSort_partition V1.isZiraName voices,
   fun voices => jsSort_partition V2.isMicrosoftName voices,
   by decide⟩

/-- C4: after each successful voice-list load of variant A, a found
preferred-marker voice is selected whenever no voice is selected or the
selected voice is not marker-matching; with no marker match and no
selection, the first sorted entry is selected; a selected marker-matching
voice is never replaced.  The last conjunct ties the selection step to
`loadVoices` itself. -/
theorem speech_c4_default_selection :
    ∀ (current : Option Voice) (sorted : List Voice),
      (((sorted.find? (fun v => V1.isZiraName v.name)).isSome = true →
          (current = none ∨ ∀ cv, current = some cv → V1.isZiraName cv.name = false) →
          V1.applyDefaultSelection current sorted =
            sorted.find? (fun v => V1.isZiraName v.name))
      ∧ (sorted.find? (fun v => V1.isZiraName v.name) = none → current = none →
          V1.applyDefaultSelection current sorted = sorted.head?)
      ∧ (∀ cv, current = some cv → V1.isZiraName cv.name = true →
          V1.applyDefaultSelection current sorted = current))
      ∧ (∀ (s : V1.AppState) (voices : List Voice),
          (V1.loadVoices s voices).settings.voice =
            V1.applyDefaultSelection s.settings.voice
              (jsSort (voiceCompare V1.isZiraName) voices)) := by
  intro current sorted
  refine ⟨⟨?_, ?_, ?_⟩, fun s voices => rfl⟩
  · intro hfind hcur
    cases current with
    | none => simp [V1.applyDefaultSelection, hfind]
    | some cv =>
      rcases hcur with h | h
      · exact absurd h (by simp)
      · simp [V1.applyDefaultSelection, hfind, h cv rfl]
  · intro hfind hcur
    subst hcur
    cases sorted with
    | nil => simp [V1.applyDefaultSelection, hfind]
    | cons v vs => simp [V1.applyDefaultSelection, hfind]
  · intro cv hcv hz
    subst hcv
    simp [V1.applyDefaultSelection, hz]

/-- Witness for C4 at a concrete input: a sorted list holding a Zira match
and no current selection gets the Zira match selected. -/
theorem speech_c4_default_selection_witness :
    V1.applyDefaultSelection none
        [⟨"Microsoft Zira Desktop".data, "en-US".data⟩] =
      List.find? (fun v => V1.isZiraName v.name)
        [⟨"Microsoft Zira Desktop".data, "en-US".data⟩] :=
  ((speech_c4_default_selection none
      [⟨"Microsoft Zira Desktop".data, "en-US".data⟩]).1.1
    (by decide) (Or.inl rfl))

/-- C1 counterexample: in variant A, with no voice ever resolved (initial
state: no selection, empty directory, local backend, facility supported),
`speak("hi")` is not a no-op — a cancel call and a speak call reach the
Synthesis Engine. -/
theorem speech_c1_counterexample :
    (V1.initialState true).settings.voice = none
    ∧ (V1.initialState true).availableVoices = []
    ∧ (V1.speak (V1.initialState true) false (Except.ok ()) "hi".data).2.1 =
        [EngineCall.cancel,
         EngineCall.speakUtt
           { text := "hi".data, voice := none, ratePct := -10, pitchPct := -10 }] := by
  decide

/-- C1 amended: if the text trims to empty, `speak` is a no-op in both
variants (no engine call, state unchanged); the no-voice guard exists only
in variant B, where `speak` is also a no-op when no voice has been
resolved; variant A instead proceeds — cancel, optional resume, then the
utterance (with the platform-default voice when none was resolved) —
whenever the trimmed text is non-empty. -/
theorem speech_c1_amended :
    ∀ (s : V1.AppState) (p : Bool) (res : Except JStr Unit) (t : JStr)
      (s2 : V2.State) (t2 : JStr),
      (s.useAzure = false → (jsTrim t).isEmpty = true →
        V1.speak s p res t = (s, [], []))
      ∧ ((jsTrim t2).isEmpty = true ∨ s2.settings.voice = none →
        V2.speak s2 t2 = (s2, []))
      ∧ (s.useAzure = false → s.speechSynthesisSupported = true →
        (jsTrim t).isEmpty = false →
        V1.speak s p res t =
          (s,
           EngineCall.cancel
             :: ((if p then [EngineCall.resume] else [])
                 ++ [EngineCall.speakUtt (V1.mkUtterance s t)]),
           [])) := by
  intro s p res t s2 t2
  refine ⟨fun haz htrim => ?_, fun h => ?_, fun haz hsup htrim => ?_⟩
  · simp [V1.speak, haz, htrim]
  · rcases h with h | h
    · simp [V2.speak, h]
    · simp [V2.speak, h]
  · simp [V1.speak, haz, hsup, htrim]

/-- Witness for C1 amended at concrete inputs: whitespace-only text is a
no-op in variant A, and text with no resolved voice is a no-op in
variant B. -/
theorem speech_c1_amended_witness :
    V1.speak (V1.initialState true) false (Except.ok ()) "   ".data =
      (V1.initialState true, [], [])
    ∧ V2.speak V2.initialState "hi".data = (V2.initialState, []) :=
  ⟨(speech_c1_amended (V1.initialState true) false (Except.ok ()) "   ".data
      V2.initialState "hi".data).1 rfl (by decide),
   (speech_c1_amended (V1.initialState true) false (Except.ok ()) "   ".data
      V2.initialState "hi".data).2.1 (Or.inr rfl)⟩

/-- C2: in variant A's utterance handlers, the start event sets the playing
flag and clears the blocked flag; a `"not-allowed"` error sets the blocked
flag, clears the playing flag and retains the requested text for retry; any
other error clears the playing flag (and leaves the blocked flag as it
was). -/
theorem speech_c2_lifecycle_transitions :
    ∀ (s : V1.AppState) (t err : JStr),
      (V1.handleEvent s V1.Event.started).isPlaying = true
      ∧ (V1.handleEvent s V1.Event.started).autoSpeechBlocked = false
      ∧ (V1.handleEvent s (V1.Event.errored V1.notAllowedError t)).autoSpeechBlocked = true
      ∧ (V1.handleEvent s (V1.Event.errored V1.notAllowedError t)).isPlaying = false
      ∧ (V1.handleEvent s (V1.Event.errored V1.notAllowedError t)).textFromUrl = some t
      ∧ (err ≠ V1.notAllowedError →
          (V1.handleEvent s (V1.Event.errored err t)).isPlaying = false
          ∧ (V1.handleEvent s (V1.Event.errored err t)).autoSpeechBlocked =
              s.autoSpeechBlocked) := by
  intro s t err
  refine ⟨rfl, rfl, by simp [V1.handleEvent, V1.handleNotAllowedError],
    by simp [V1.handleEvent, V1.handleNotAllowedError],
    by simp [V1.handleEvent, V1.handleNotAllowedError],
    fun herr => ?_⟩
  constructor <;> simp [V1.handleEvent, herr]

/-- Witness for C2 at a concrete input: an `"interrupted"` error in the
initial state leaves the controller not playing with the blocked flag
unchanged. -/
theorem speech_c2_lifecycle_transitions_witness :
    (V1.handleEvent (V1.initialState true)
        (V1.Event.errored V1.interruptedError [])).isPlaying = false
    ∧ (V1.handleEvent (V1.initialState true)
        (V1.Event.errored V1.interruptedError [])).autoSpeechBlocked =
        (V1.initialState true).autoSpeechBlocked :=
  (speech_c2_lifecycle_transitions (V1.initialState true) [] V1.interruptedError).2.2.2.2.2
    (by decide)

/-- One handler step of variant A keeps the playing and blocked flags
mutually exclusive. -/
theorem handleEvent_flags_exclusive (s : V1.AppState) (e : V1.Event)
    (h : (s.isPlaying && s.autoSpeechBlocked) = false) :
    ((V1.handleEvent s e).isPlaying && (V1.handleEvent s e).autoSpeechBlocked) = false := by
  cases e with
  | started => simp [V1.handleEvent]
  | ended => simp [V1.handleEvent]
  | errored err t =>
    by_cases herr : err = V1.notAllowedError <;>
      simp [V1.handleEvent, V1.handleNotAllowedError, herr]
  | togglePlayPause =>
    by_cases hp : s.isPlaying <;> simp_all [V1.handleEvent]

/-- Flag exclusivity holds along every event sequence from a given state. -/
theorem runEvents_flags_exclusive (evs : List V1.Event) :
    ∀ (s : V1.AppState), (s.isPlaying && s.autoSpeechBlocked) = false →
      ((evs.foldl V1.handleEvent s).isPlaying
        && (evs.foldl V1.handleEvent s).autoSpeechBlocked) = false := by
  induction evs with
  | nil => intro s h; simpa using h
  | cons e evs ih =>
    intro s h
    exact ih (V1.handleEvent s e) (handleEvent_flags_exclusive s e h)

/-- C10: on the local backend, the playing indicator and the
autoplay-blocked flag are never simultaneously true — each handler step
preserves the exclusion, and every state reachable from the initial render
satisfies it. -/
theorem speech_c10_flags_exclusive :
    (∀ (s : V1.AppState) (e : V1.Event),
        (s.isPlaying && s.autoSpeechBlocked) = false →
        ((V1.handleEvent s e).isPlaying && (V1.handleEvent s e).autoSpeechBlocked) = false)
    ∧ (∀ (evs : List V1.Event),
        ((V1.runEvents evs).isPlaying && (V1.runEvents evs).autoSpeechBlocked) = false) :=
  ⟨handleEvent_flags_exclusive,
   fun evs => runEvents_flags_exclusive evs (V1.initialState true) (by decide)⟩

/-- Witness for C10 at a concrete input: from the initial state, a blocked
error followed by a successful start leaves the flags exclusive. -/
theorem speech_c10_flags_exclusive_witness :
    ((V1.handleEvent (V1.initialState true) V1.Event.started).isPlaying
      && (V1.handleEvent (V1.initialState true) V1.Event.started).autoSpeechBlocked) = false :=
  speech_c10_flags_exclusive.1 (V1.initialState true) V1.Event.started (by decide)

/-- A directory that only ever returns an empty list makes the loader poll
once and retry until the fuel runs out, leaving the state untouched. -/
theorem loadVoices_all_empty (g : Nat → List Voice) (h : ∀ k, g k = []) :
    ∀ (fuel : Nat) (s : V2.State) (a : Nat),
      V2.loadVoices g s a fuel = (s, fuel + 1) := by
  intro fuel
  induction fuel with
  | zero => intro s a; simp [V2.loadVoices, h a]
  | succ f ih => intro s a; simp [V2.loadVoices, h a, ih s (a + 1)]

/-- If the directory is empty for the first `j` polls and non-empty at poll
`j ≤ fuel`, the loader stops after `j + 1` polls and populates (one-shot
guard permitting). -/
theorem loadVoices_first_nonempty (g : Nat → List Voice) :
    ∀ (j fuel a : Nat) (s : V2.State), j ≤ fuel →
      (∀ k, k < j → g (a + k) = []) → (g (a + j)).isEmpty = false →
      s.voicesLoaded = false →
      V2.loadVoices g s a fuel = (V2.populateVoices s (g (a + j)), j + 1) := by
  intro j
  induction j with
  | zero =>
    intro fuel a s _ _ hne hl
    cases fuel <;> simp_all [V2.loadVoices]
  | succ j ih =>
    intro fuel a s hj hk hne hl
    cases fuel with
    | zero => omega
    | succ f =>
      have h0 : g a = [] := by simpa using hk 0 (Nat.succ_pos j)
      have hshift : a + (j + 1) = (a + 1) + j := by omega
      have hrec :=
        ih f (a + 1) s (by omega)
          (fun k hk' => by
            have := hk (k + 1) (by omega)
            simpa [show a + (k + 1) = (a + 1) + k by omega] using this)
          (by simpa [hshift] using hne) hl
      simp [V2.loadVoices, h0, hrec, hshift]

/-- After the one-shot guard has been set, re-invocation of the loader
never changes the state again. -/
theorem loadVoices_one_shot (g : Nat → List Voice) :
    ∀ (fuel a : Nat) (s : V2.State), s.voicesLoaded = true →
      (V2.loadVoices g s a fuel).1 = s := by
  intro fuel
  induction fuel with
  | zero =>
    intro a s hl
    by_cases he : (g a).isEmpty <;> simp [V2.loadVoices, he, hl]
  | succ f ih =>
    intro a s hl
    by_cases he : (g a).isEmpty <;> simp [V2.loadVoices, he, hl, ih (a + 1) s hl]

/-- Population on a non-empty list sets the one-shot flag, publishes a
non-empty sorted list and resolves a voice. -/
theorem populateVoices_facts (s : V2.State) (voices : List Voice)
    (h : voices ≠ []) :
    (V2.populateVoices s voices).voicesLoaded = true
    ∧ (V2.populateVoices s voices).availableVoices =
        jsSort (voiceCompare V2.isMicrosoftName) voices
    ∧ (V2.populateVoices s voices).availableVoices ≠ []
    ∧ ((V2.populateVoices s voices).settings.voice).isSome = true := by
  have hsne : jsSort (voiceCompare V2.isMicrosoftName) voices ≠ [] := by
    intro hc
    exact h (List.length_eq_zero.mp
      ((jsSort_length V2.isMicrosoftName voices).symm.trans (by rw [hc]; rfl)))
  cases hfind : (jsSort (voiceCompare V2.isMicrosoftName) voices).find?
      (fun v => V2.isMicrosoftName v.name) with
  | some mv => simp [V2.populateVoices, hfind, hsne]
  | none =>
    cases hs : jsSort (voiceCompare V2.isMicrosoftName) voices with
    | nil => exact absurd hs hsne
    | cons v vs =>
      rw [hs] at hfind
      simp [V2.populateVoices, hs, hfind]

/-- C5: the voice loader of variant B polls at a fixed 100 ms interval, at
most 50 retries; if the directory stays empty it gives up silently with the
state untouched after 51 polls; the first non-empty result stops the
retrying and populates (non-empty sorted list, a voice resolved); and once
the one-shot guard is set, re-invocation changes nothing. -/
theorem speech_c5_voice_load_retry :
    V2.retryDelayMs = 100 ∧ V2.maxRetries = 50
    ∧ (∀ (g : Nat → List Voice) (s : V2.State), (∀ k, g k = []) →
        V2.loadVoices g s 0 V2.maxRetries = (s, V2.maxRetries + 1))
    ∧ (∀ (g : Nat → List Voice) (s : V2.State) (j : Nat),
        j ≤ V2.maxRetries → (∀ k, k < j → g k = []) →
        (g j).isEmpty = false → s.voicesLoaded = false →
        V2.loadVoices g s 0 V2.maxRetries = (V2.populateVoices s (g j), j + 1))
    ∧ (∀ (s : V2.State) (voices : List Voice), voices ≠ [] →
        (V2.populateVoices s voices).voicesLoaded = true
        ∧ (V2.populateVoices s voices).availableVoices ≠ []
        ∧ ((V2.populateVoices s voices).settings.voice).isSome = true)
    ∧ (∀ (g : Nat → List Voice) (s : V2.State) (a fuel : Nat),
        s.voicesLoaded = true → (V2.loadVoices g s a fuel).1 = s) := by
  refine ⟨rfl, rfl, ?_, ?_, ?_, ?_⟩
  · intro g s h
    exact loadVoices_all_empty g h V2.maxRetries s 0
  · intro g s j hj hk hne hl
    have := loadVoices_first_nonempty g j V2.maxRetries 0 s hj
      (fun k hk' => by simpa using hk k hk') (by simpa using hne) hl
    simpa using this
  · intro s voices h
    obtain ⟨h1, _, h3, h4⟩ := populateVoices_facts s voices h
    exact ⟨h1, h3, h4⟩
  · intro g s a fuel hl
    exact loadVoices_one_shot g fuel a s hl

/-- Witness for C5 at a concrete input: an always-empty directory leaves
the initial state untouched after 51 polls. -/
theorem speech_c5_voice_load_retry_witness :
    V2.loadVoices (fun _ => []) V2.initialState 0 V2.maxRetries =
      (V2.initialState, V2.maxRetries + 1) :=
  speech_c5_voice_load_retry.2.2.1 (fun _ => []) V2.initialState (fun _ => rfl)

/-- The keep-alive loop of variant A issues exactly one pause-resume pair
per tick at which the engine still reports speaking, and stops at the first
tick at which it does not. -/
theorem restartSpeech_replicate (speaking : Nat → Bool) :
    ∀ (fuel k : Nat),
      V1.restartSpeech speaking k fuel =
        (List.replicate (aliveCount speaking k fuel)
          [EngineCall.pause, EngineCall.resume]).flatten := by
  intro fuel
  induction fuel with
  | zero => intro k; rfl
  | succ f ih =>
    intro k
    by_cases hk : speaking k <;>
      simp [V1.restartSpeech, aliveCount, hk, ih (k + 1), List.replicate_succ]

/-- The interval watchdog of variant B issues the same call trace as the
keep-alive loop of variant A. -/
theorem watchdogTicks_eq_restartSpeech (speaking : Nat → Bool) :
    ∀ (fuel k : Nat),
      V2.watchdogTicks speaking k fuel = V1.restartSpeech speaking k fuel := by
  intro fuel
  induction fuel with
  | zero => intro k; rfl
  | succ f ih =>
    intro k
    by_cases hk : speaking k <;> simp [V2.watchdogTicks, V1.restartSpeech, hk, ih (k + 1)]

/-- Counting pauses (resp. resumes) in `n` flattened pause-resume pairs
gives `n`. -/
theorem count_flatten_pairs (n : Nat) :
    List.count EngineCall.pause
        ((List.replicate n [EngineCall.pause, EngineCall.resume]).flatten) = n
    ∧ List.count EngineCall.resume
        ((List.replicate n [EngineCall.pause, EngineCall.resume]).flatten) = n := by
  induction n with
  | zero => exact ⟨rfl, rfl⟩
  | succ m ih => simp [List.replicate_succ, ih.1, ih.2]

/-- C6: while Speaking, each elapse of the keep-alive interval (15 s in
variant A, 14 s in variant B) with the engine still reporting speaking
causes exactly one pause immediately followed by one resume and a
reschedule — the trace is exactly one pause-resume pair per alive tick —
and once the engine reports not speaking, the watchdog stops and no further
pause or resume is ever issued. -/
theorem speech_c6_keepalive_watchdog :
    V1.maxTimeout = 15000 ∧ V2.keepAliveInterval = 14000
    ∧ (∀ (speaking : Nat → Bool) (k fuel : Nat),
        V1.restartSpeech speaking k fuel =
          (List.replicate (aliveCount speaking k fuel)
            [EngineCall.pause, EngineCall.resume]).flatten
        ∧ V2.watchdogTicks speaking k fuel = V1.restartSpeech speaking k fuel
        ∧ (speaking k = false →
            V1.restartSpeech speaking k fuel = []
            ∧ V2.watchdogTicks speaking k fuel = [])
        ∧ List.count EngineCall.pause (V1.restartSpeech speaking k fuel) =
            aliveCount speaking k fuel
        ∧ List.count EngineCall.resume (V1.restartSpeech speaking k fuel) =
            aliveCount speaking k fuel) := by
  refine ⟨rfl, rfl, fun speaking k fuel => ⟨restartSpeech_replicate speaking fuel k,
    watchdogTicks_eq_restartSpeech speaking fuel k, fun hstop => ?_, ?_, ?_⟩⟩
  · cases fuel with
    | zero => exact ⟨rfl, rfl⟩
    | succ f =>
      constructor <;> simp [V1.restartSpeech, V2.watchdogTicks, hstop]
  · rw [restartSpeech_replicate speaking fuel k]
    exact (count_flatten_pairs _).1
  · rw [restartSpeech_replicate speaking fuel k]
    exact (count_flatten_pairs _).2

/-- Witness for C6 at a concrete input: an engine that stops speaking
before the first tick receives no pause or resume at all. -/
theorem speech_c6_keepalive_watchdog_witness :
    V1.restartSpeech (fun _ => false) 0 3 = []
    ∧ V2.watchdogTicks (fun _ => false) 0 3 = [] :=
  (speech_c6_keepalive_watchdog.2.2 (fun _ => false) 0 3).2.2.1 rfl

/-- C7 counterexample: teardown does not make exactly one cancel call —
variant A (which has two cleanup effects) cancels twice even from the Idle
initial state, and variant B with no live utterance cancels zero times. -/
theorem speech_c7_counterexample :
    List.count EngineCall.cancel (V1.unmountEngineCalls (V1.initialState true)) = 2
    ∧ ¬ List.count EngineCall.cancel (V1.unmountEngineCalls (V1.initialState true)) = 1
    ∧ List.count EngineCall.cancel (V2.unmountEngineCalls V2.initialState) = 0 := by
  decide

/-- C7 amended: teardown of variant A issues exactly two cancel calls (one
per cleanup effect) regardless of the playback state, whenever the platform
facility exists; teardown of variant B issues exactly one cancel when an
utterance is currently held and none otherwise. -/
theorem speech_c7_teardown_cancels :
    ∀ (s : V1.AppState) (s2 : V2.State),
      (s.speechSynthesisSupported = true →
        List.count EngineCall.cancel (V1.unmountEngineCalls s) = 2)
      ∧ List.count EngineCall.cancel (V2.unmountEngineCalls s2) =
          (if s2.utteranceRef.isSome then 1 else 0) := by
  intro s s2
  constructor
  · intro h
    simp [V1.unmountEngineCalls, h]
  · by_cases h : s2.utteranceRef.isSome <;> simp [V2.unmountEngineCalls, h]

/-- Witness for C7 amended at a concrete input: the supported initial state
of variant A cancels exactly twice on teardown. -/
theorem speech_c7_teardown_cancels_witness :
    List.count EngineCall.cancel (V1.unmountEngineCalls (V1.initialState true)) = 2 :=
  (speech_c7_teardown_cancels (V1.initialState true) V2.initialState).1 rfl

/-- C8: on the cloud path, a missing key or region surfaces a configuration
alert, opens the settings panel, attempts no synthesis and leaves the
playing flag unchanged; otherwise the playing flag is set before the
synthesis call, unconditionally cleared in the final step after the call
settles, and a failure raises a user-visible alert. -/
theorem speech_c8_azure_path :
    ∀ (cfg : V1.AzureConfig) (res : Except JStr Unit) (t : JStr) (s : V1.AppState),
      ((cfg.key.isEmpty || cfg.region.isEmpty) = true →
        V1.speakWithAzure cfg res t =
          [V1.AzureEvent.alertConfig, V1.AzureEvent.openSettings]
        ∧ (∀ u v, V1.AzureEvent.synthesize u v ∉ V1.speakWithAzure cfg res t)
        ∧ (V1.applyAzureTrace s (V1.speakWithAzure cfg res t)).isPlaying = s.isPlaying
        ∧ (V1.applyAzureTrace s (V1.speakWithAzure cfg res t)).showSettings = true)
      ∧ ((cfg.key.isEmpty || cfg.region.isEmpty) = false →
        (V1.speakWithAzure cfg res t).take 2 =
          [V1.AzureEvent.setPlaying true, V1.AzureEvent.synthesize t cfg.voice]
        ∧ (V1.speakWithAzure cfg res t).getLast? =
            some (V1.AzureEvent.setPlaying false)
        ∧ (V1.applyAzureTrace s (V1.speakWithAzure cfg res t)).isPlaying = false
        ∧ (∀ e, res = Except.error e →
            V1.AzureEvent.alertSynthesisFailed ∈ V1.speakWithAzure cfg res t)) := by
  intro cfg res t s
  constructor
  · intro h
    refine ⟨by simp [V1.speakWithAzure, h], ?_, ?_, ?_⟩ <;>
      simp [V1.speakWithAzure, h, V1.applyAzureTrace, V1.applyAzureEvent]
  · intro h
    cases res with
    | ok u =>
      refine ⟨by simp [V1.speakWithAzure, h], by simp [V1.speakWithAzure, h], ?_,
        fun e he => by cases he⟩
      simp [V1.speakWithAzure, h, V1.applyAzureTrace, V1.applyAzureEvent]
    | error e =>
      refine ⟨by simp [V1.speakWithAzure, h], by simp [V1.speakWithAzure, h], ?_, ?_⟩
      · simp [V1.speakWithAzure, h, V1.applyAzureTrace, V1.applyAzureEvent]
      · intro e' _
        simp [V1.speakWithAzure, h]

/-- Witness for C8 at a concrete input: with no key configured, the cloud
path only alerts and opens the settings panel. -/
theorem speech_c8_azure_path_witness :
    V1.speakWithAzure { key := [], region := [], voice := "en-US-JennyNeural".data }
        (Except.ok ()) "hi".data =
      [V1.AzureEvent.alertConfig, V1.AzureEvent.openSettings] :=
  ((speech_c8_azure_path
      { key := [], region := [], voice := "en-US-JennyNeural".data }
      (Except.ok ()) "hi".data (V1.initialState true)).1 rfl).1

/-- C9 counterexample: the claim that the text handed to `speak` is the
parameter value URI-decoded with one layer of surrounding quotes stripped
fails at concrete inputs (taking `decodeURIComponent` at escape-free
strings, where it is the identity): variant B hands the quoted value
through unstripped, and variant A additionally whitespace-trims, so a
whitespace-padded unquoted value is altered. -/
theorem speech_c9_counterexample :
    V2.processTextParam (fun u => u) [squoteChar, 'h', 'i', squoteChar] =
      [squoteChar, 'h', 'i', squoteChar]
    ∧ [squoteChar, 'h', 'i', squoteChar] ≠ "hi".data
    ∧ V1.processTextParam (fun u => u) " hi ".data = "hi".data
    ∧ "hi".data ≠ " hi ".data := by
  decide

/-- C9 amended: variant A hands to `speak` the parameter value with one
leading and one trailing quote character removed when the value begins and
ends with quote characters (its interior free of line terminators), then
whitespace-trimmed, then URI-decoded; variant B hands the parameter value
URI-decoded with no quote stripping and no trimming. -/
theorem speech_c9_url_text_processing :
    ∀ (decode : JStr → JStr) (raw : JStr),
      (hasSurroundingQuotes raw = true →
        V1.processTextParam decode raw = decode (jsTrim ((raw.drop 1).dropLast)))
      ∧ (hasSurroundingQuotes raw = false →
        V1.processTextParam decode raw = decode (jsTrim raw))
      ∧ V2.processTextParam decode raw = decode raw := by
  intro decode raw
  refine ⟨fun h => ?_, fun h => ?_, rfl⟩ <;>
    simp [V1.processTextParam, stripSurroundingQuotes, h]

/-- Witness for C9 amended at a concrete input: a single-quoted value has
its quotes stripped before decoding in variant A. -/
theorem speech_c9_url_text_processing_witness :
    V1.processTextParam (fun u => u) [squoteChar, 'h', 'i', squoteChar] =
      (fun u => u) (jsTrim (([squoteChar, 'h', 'i', squoteChar].drop 1).dropLast)) :=
  (speech_c9_url_text_processing (fun u => u)
      [squoteChar, 'h', 'i', squoteChar]).1 (by decide)

end SpeechService
